import Mathlib

/-!
# Verification of the NFC payments backend money-movement core

Shallow embedding of the Go services in `internal/services` (double-entry
ledger, transaction pipeline) and of the HSM signing layer, together with
proofs settling the specification claims about them.

The database is modelled as an explicit state record; SQL statements become
pure functions on that state; 64-bit machine arithmetic is modelled on `Int`
with explicit wrapping where the Go code performs `int64` operations.
-/

namespace NFCPay

/-! ## 64-bit integer arithmetic

Go `int64` arithmetic wraps around (two's complement); the ledger code
computes `-amount`, `balance - amount` and `balance + amount` on `int64`.
-/

/-- Normalise an integer into the `int64` range, wrapping modulo `2^64`
exactly as Go two's-complement arithmetic does. -/
def i64wrap (n : Int) : Int := (n + 2 ^ 63) % 2 ^ 64 - 2 ^ 63

/-- Go `int64` negation `-n`. -/
def i64neg (n : Int) : Int := i64wrap (-n)

/-- Go `int64` addition `a + b`. -/
def i64add (a b : Int) : Int := i64wrap (a + b)

/-- Go `int64` subtraction `a - b`. -/
def i64sub (a b : Int) : Int := i64wrap (a - b)

theorem i64wrap_eq_of_range (n : Int) (h1 : -(2 ^ 63) ≤ n) (h2 : n < 2 ^ 63) :
    i64wrap n = n := by
  unfold i64wrap
  have h3 : (0:Int) ≤ n + 2 ^ 63 := by linarith
  have h4 : n + 2 ^ 63 < 2 ^ 64 := by linarith [h2]
  rw [Int.emod_eq_of_lt h3 h4]
  ring

theorem i64neg_add_self (n : Int) (h1 : -(2 ^ 63) < n) (h2 : n < 2 ^ 63) :
    i64neg n + n = 0 := by
  unfold i64neg
  rw [i64wrap_eq_of_range (-n) (by linarith) (by linarith)]
  ring

/-! ## Data model

Mirrors the rows of `migrations` / `internal/models`:
`accounts(id, card_id, account_id, balance, version, status, …)`,
`ledger_entries(transaction_id, account_id, amount, entry_type, balance, …)`,
`payment_states(transaction_id, state, …)` and
`transactions(transaction_id UNIQUE, from_card_id, to_card_id, amount,
currency, type, signature, status, …)`.  Timestamps are irrelevant to the
claims and omitted.
-/

/-! ## Byte-wise string comparison

Go compares strings byte-wise; on UTF-8 this coincides with code-point
lexicographic order, modelled here on the character list of a `String`. -/

def listStrLt : List Char → List Char → Bool
  | [], [] => false
  | [], _ :: _ => true
  | _ :: _, [] => false
  | c :: cs, d :: ds =>
    if c.toNat < d.toNat then true
    else if d.toNat < c.toNat then false
    else listStrLt cs ds

/-- Go string comparison `a < b`. -/
def strLt (a b : String) : Bool := listStrLt a.data b.data

theorem uint32_toNat_inj (a b : UInt32) (h : a.toNat = b.toNat) : a = b := by
  cases a with | mk v =>
  cases b with | mk w =>
  congr 1
  exact BitVec.toNat_injective h

theorem char_toNat_inj (c d : Char) (h : c.toNat = d.toNat) : c = d :=
  Char.ext (uint32_toNat_inj _ _ h)

theorem listStrLt_trichotomy (xs ys : List Char) (h : xs ≠ ys) :
    listStrLt xs ys = true ∨ listStrLt ys xs = true := by
  induction xs generalizing ys with
  | nil =>
    cases ys with
    | nil => exact absurd rfl h
    | cons d ds => left; rfl
  | cons c cs ih =>
    cases ys with
    | nil => right; rfl
    | cons d ds =>
      by_cases hcd : c.toNat < d.toNat
      · left; simp [listStrLt, hcd]
      · by_cases hdc : d.toNat < c.toNat
        · right; simp [listStrLt, hdc]
        · have hceq : c = d :=
            char_toNat_inj c d (le_antisymm (not_lt.mp hdc) (not_lt.mp hcd))
          subst hceq
          have htail : cs ≠ ds := fun he => h (by rw [he])
          rcases ih ds htail with h1 | h1
          · left; simpa [listStrLt, hcd, hdc] using h1
          · right; simpa [listStrLt, hcd, hdc] using h1

theorem strLt_trichotomy (a b : String) (h : a ≠ b) :
    strLt a b = true ∨ strLt b a = true := by
  have hdata : a.data ≠ b.data := by
    intro he
    apply h
    cases a; cases b; simp_all
  exact listStrLt_trichotomy a.data b.data hdata

structure Account where
  id        : String
  cardID    : String
  accountID : String
  balance   : Int
  version   : Nat
  status    : String
  deriving DecidableEq, Repr

structure LedgerEntry where
  txID      : String
  accountID : String
  amount    : Int
  entryType : String
  balance   : Int
  deriving DecidableEq, Repr

/-- A row of the `transactions` table, with exactly the columns that
`storeTransaction` / `storeTransactionTx` insert.  The migrations define no
`counter` and no `card_id` column on this table. -/
structure TxRow where
  txID       : String
  fromCardID : String
  toCardID   : String
  amount     : Int
  currency   : String
  txType     : String
  signature  : String
  status     : String
  deriving DecidableEq, Repr

/-- The database state visible to the services: the `accounts`,
`ledger_entries`, `payment_states` and `transactions` tables plus the
`cards` table column `cak` (card authentication key, hex) keyed by card id. -/
structure DBState where
  accounts      : List Account
  ledger        : List LedgerEntry
  paymentStates : List (String × String)
  txRows        : List TxRow
  cards         : List (String × String)
  deriving DecidableEq, Repr

/-! ## DoubleLedgerService (`internal/services/ledger_service.go`) -/

/-- Model of `lockAccount`: `SELECT id, balance, version, … FROM accounts
WHERE card_id = $1 OR account_id = $1 OR id = $1 LIMIT 1 FOR UPDATE`.
Returns the first matching row. -/
def lookupAccount (accts : List Account) (ident : String) : Option Account :=
  accts.find? (fun a => a.cardID = ident || a.accountID = ident || a.id = ident)

/-- The consistent lock order of `TransferTx`:
`firstLock, secondLock := from, to; if from > to { swap }`. -/
def lockOrder (fromID toID : String) : String × String :=
  if strLt toID fromID then (toID, fromID) else (fromID, toID)

/-- Model of `createLedgerEntry`: `INSERT INTO ledger_entries (transaction_id,
account_id, amount, entry_type, balance, …)`. -/
def createLedgerEntry (st : DBState) (txID accountID : String) (amount : Int)
    (entryType : String) (balance : Int) : DBState :=
  { st with ledger := st.ledger ++
      [{ txID := txID, accountID := accountID, amount := amount,
         entryType := entryType, balance := balance }] }

/-- Model of `updateAccountBalance`: `UPDATE accounts SET balance = $1,
version = version + 1 WHERE id = $3 AND version = $4`; zero rows affected is
reported as an optimistic-lock failure. -/
def updateAccountBalance (st : DBState) (accountID : String) (newBalance : Int)
    (version : Nat) : Except String DBState :=
  let affected := st.accounts.filter (fun a => a.id = accountID && a.version = version)
  if affected.isEmpty then
    .error ("optimistic lock failed for account " ++ accountID)
  else
    .ok { st with accounts := st.accounts.map (fun a =>
        if a.id = accountID && a.version = version then
          { a with balance := newBalance, version := a.version + 1 }
        else a) }

/-- Model of `appendPaymentState`: `INSERT INTO payment_states (transaction_id, state, …)`. -/
def appendPaymentState (st : DBState) (txID state : String) : DBState :=
  { st with paymentStates := st.paymentStates ++ [(txID, state)] }

/-- Model of `TransferTx`: lock the two accounts in consistent order, re-associate the
debit/credit roles, check the source balance, insert the two ledger entries
and perform the two version-conditioned balance updates.  Runs inside the
caller's database transaction, so it returns the updated (uncommitted) state
or an error.  The second component records the account identifiers in the
order their row locks were acquired. -/
def transferTx (fromID toID txID : String) (amount : Int) (st : DBState) :
    Except String DBState × List String :=
  let (firstLock, secondLock) := lockOrder fromID toID
  match lookupAccount st.accounts firstLock with
  | none => (.error "sql: no rows in result set", [firstLock])
  | some acct1 =>
    match lookupAccount st.accounts secondLock with
    | none => (.error "sql: no rows in result set", [firstLock, secondLock])
    | some acct2 =>
      -- Determine which locked account is sender/receiver
      let (fromAcct, toAcct) :=
        if firstLock ≠ fromID then (acct2, acct1) else (acct1, acct2)
      if fromAcct.balance < amount then
        (.error "insufficient balance", [firstLock, secondLock])
      else
        let st1 := createLedgerEntry st txID fromAcct.id (i64neg amount) "DEBIT"
          (i64sub fromAcct.balance amount)
        let st2 := createLedgerEntry st1 txID toAcct.id amount "CREDIT"
          (i64add toAcct.balance amount)
        match updateAccountBalance st2 fromAcct.id (i64sub fromAcct.balance amount)
            fromAcct.version with
        | .error e => (.error e, [firstLock, secondLock])
        | .ok st3 =>
          match updateAccountBalance st3 toAcct.id (i64add toAcct.balance amount)
              toAcct.version with
          | .error e => (.error e, [firstLock, secondLock])
          | .ok st4 => (.ok st4, [firstLock, secondLock])

/-- Model of `Transfer`: begin a database transaction, append the PENDING payment
state, run `TransferTx`, and commit with the SUCCESS state; any failure rolls
the whole unit of work back (`defer tx.Rollback()` with no commit), so the
committed state is the original one.  Returns (outcome, committed state,
lock-acquisition trace). -/
def transfer (fromID toID txID : String) (amount : Int) (st : DBState) :
    Except String Unit × DBState × List String :=
  let st1 := appendPaymentState st txID "PENDING"
  match transferTx fromID toID txID amount st1 with
  | (.error e, locks) => (.error e, st, locks)
  | (.ok st2, locks) => (.ok (), appendPaymentState st2 txID "SUCCESS", locks)

/-! ## TransactionService (`internal/services/transaction_service.go`) -/

/-- The wire-level `Transaction` struct: version `uint8`, timestamp and
amount `int64`, counter `uint32` (modelled as `Nat` values). -/
structure Tx where
  version    : Nat
  txID       : String
  timestamp  : Int
  cardID     : String
  merchantID : String
  amount     : Int
  currency   : String
  counter    : Nat
  txType     : String
  signature  : String
  narration  : String
  status     : String
  deriving DecidableEq, Repr

/-- Model of `int64ToBytes`: 8 big-endian bytes of the two's-complement value. -/
def int64ToBytes (n : Int) : List Nat :=
  let u := (n % 2 ^ 64).toNat
  [u / 2 ^ 56 % 256, u / 2 ^ 48 % 256, u / 2 ^ 40 % 256, u / 2 ^ 32 % 256,
   u / 2 ^ 24 % 256, u / 2 ^ 16 % 256, u / 2 ^ 8 % 256, u % 256]

/-- Model of `uint32ToBytes`: 4 big-endian bytes. -/
def uint32ToBytes (n : Nat) : List Nat :=
  [n / 2 ^ 24 % 256, n / 2 ^ 16 % 256, n / 2 ^ 8 % 256, n % 256]

/-- String bytes (UTF-8 abstracted to code points; all identifiers in this
system are ASCII, where the two coincide). -/
def strBytes (s : String) : List Nat := s.data.map Char.toNat

/-- Model of `serializeTransaction`: the canonical authenticated byte string —
version ∥ txID ∥ timestamp ∥ cardID ∥ merchantID ∥ amount ∥ currency ∥
counter ∥ txType. -/
def serializeTransaction (tx : Tx) : List Nat :=
  [tx.version % 256] ++ strBytes tx.txID ++ int64ToBytes tx.timestamp ++
    strBytes tx.cardID ++ strBytes tx.merchantID ++ int64ToBytes tx.amount ++
    strBytes tx.currency ++ uint32ToBytes tx.counter ++ strBytes tx.txType

/-- The HMAC-SHA256 of the card-authentication key and a byte string, hex
encoded, abstracted as a parameter of the pipeline (its collision structure
is irrelevant to every claim below). -/
abbrev MacFn := String → List Nat → String

/-- Model of `getCardAuthKey`: `SELECT cak FROM cards WHERE card_id = $1`. -/
def getCardAuthKey (cards : List (String × String)) (cardID : String) :
    Except String String :=
  match cards.find? (fun c => c.1 = cardID) with
  | none => .error "sql: no rows in result set"
  | some c => .ok c.2

/-- Model of `verifySignature`: fetch the card authentication key, recompute the HMAC
over the canonical serialization and compare with the supplied signature. -/
def verifySignature (mac : MacFn) (cards : List (String × String)) (tx : Tx) :
    Except String Unit :=
  match getCardAuthKey cards tx.cardID with
  | .error e => .error ("failed to get card keys: " ++ e)
  | .ok cak =>
    if mac cak (serializeTransaction tx) = tx.signature then .ok ()
    else .error "signature mismatch"

/-- Model of `ValidateStruct` on the `Transaction` struct tags: every field
`required` (non-zero / non-empty), `amount gt=0`, `currency len=3`,
`counter gt=0`, `txType oneof=DEBIT CREDIT`. -/
def validateStructTx (tx : Tx) : Except String Unit :=
  if tx.txID = "" then .error "Validation failed"
  else if tx.timestamp = 0 then .error "Validation failed"
  else if tx.cardID = "" then .error "Validation failed"
  else if tx.merchantID = "" then .error "Validation failed"
  else if tx.amount ≤ 0 then .error "Validation failed"
  else if tx.currency.length ≠ 3 then .error "Validation failed"
  else if tx.counter = 0 then .error "Validation failed"
  else if tx.txType ≠ "DEBIT" ∧ tx.txType ≠ "CREDIT" then .error "Validation failed"
  else if tx.signature = "" then .error "Validation failed"
  else .ok ()

/-- Model of `validateAccountInternal`: `SELECT status FROM accounts WHERE card_id = $1`;
missing row → "account not found", non-ACTIVE → "account not active". -/
def validateAccountInternal (accts : List Account) (cardID : String) :
    Except String Unit :=
  match accts.find? (fun a => a.cardID = cardID) with
  | none => .error "account not found"
  | some a => if a.status ≠ "ACTIVE" then .error "account not active" else .ok ()

/-- Model of `checkSufficientBalanceInternal`: `SELECT balance, status FROM accounts
WHERE card_id = $1` plus the ACTIVE and `balance < amount` checks. -/
def checkSufficientBalanceInternal (accts : List Account) (cardID : String)
    (amount : Int) : Except String Unit :=
  match accts.find? (fun a => a.cardID = cardID) with
  | none => .error "account not found"
  | some a =>
    if a.status ≠ "ACTIVE" then .error "account not active"
    else if a.balance < amount then .error "insufficient balance"
    else .ok ()

/-- Model of `validateTransaction`: the field, account-state, balance and timestamp
checks, in source order.  `now` is `time.Now().Unix()`; the window accepted
by the code is `now - 86400*7 ≤ ts ≤ now + 60`. -/
def validateTransaction (now : Int) (accts : List Account) (tx : Tx) :
    Except String Unit :=
  if tx.txID = "" then .error "transaction ID is required"
  else if tx.cardID = "" then .error "card ID is required"
  else match validateAccountInternal accts tx.cardID with
  | .error e => .error e
  | .ok _ =>
    if tx.merchantID = "" then .error "merchant ID is required"
    else if tx.amount ≤ 0 then .error "amount must be positive"
    else match (if tx.txType = "DEBIT" then
        checkSufficientBalanceInternal accts tx.cardID tx.amount else .ok ()) with
    | .error e => .error e
    | .ok _ =>
      if tx.currency = "" then .error "currency is required"
      else if tx.counter = 0 then .error "counter is required"
      else if tx.signature = "" then .error "signature is required"
      else if tx.timestamp > now + 60 then
        .error "transaction timestamp is in the future"
      else if tx.timestamp < now - 86400 * 7 then
        .error "transaction timestamp is too old (>7 days)"
      else .ok ()

/-- The `(card_id, counter)` pairs visible to `checkDoubleSpending`'s queries
against the `transactions` store.  The migrations define no `counter` (or
`card_id`) column on `transactions`, and neither `storeTransaction` nor
`storeTransactionTx` nor the external-transfer path inserts one, so no row
ever contributes a pair: the recorded counter history is always empty. -/
def recordedCounterPairs (_rows : List TxRow) : List (String × Nat) := []

/-- Model of `COALESCE(MAX(counter), 0)` over the recorded pairs of one card. -/
def maxCounterFor (pairs : List (String × Nat)) (cardID : String) : Nat :=
  ((pairs.filter (fun p => p.1 = cardID)).map (fun p => p.2)).foldl max 0

/-- Model of `checkDoubleSpending`: reject if the `(card_id, counter)` pair has been
used, then reject if the counter does not exceed the recorded maximum. -/
def checkDoubleSpending (pairs : List (String × Nat)) (tx : Tx) :
    Except String Unit :=
  if (tx.cardID, tx.counter) ∈ pairs then .error "counter already used"
  else if tx.counter ≤ maxCounterFor pairs tx.cardID then
    .error "counter not incrementing"
  else .ok ()

/-- Model of `INSERT INTO transactions …`: the `transaction_id` column is UNIQUE, so
inserting a duplicate identifier fails. -/
def insertTxRow (st : DBState) (row : TxRow) : Except String DBState :=
  if st.txRows.any (fun r => r.txID = row.txID) then
    .error "duplicate key value violates unique constraint"
  else .ok { st with txRows := st.txRows ++ [row] }

/-- The `transactions` row written by `storeTransaction`/`storeTransactionTx`
for a processed transaction (status forced to COMPLETED before the insert). -/
def rowOfTx (tx : Tx) : TxRow :=
  { txID := tx.txID, fromCardID := tx.cardID, toCardID := tx.merchantID,
    amount := tx.amount, currency := tx.currency, txType := tx.txType,
    signature := tx.signature, status := "COMPLETED" }

/-- Model of `storeTransaction`: set the status to COMPLETED and insert the row
(outside any enclosing database transaction). -/
def storeTransaction (st : DBState) (tx : Tx) : Except String DBState :=
  insertTxRow st (rowOfTx tx)

/-- The HTTP-level outcome of `CreateTransaction`. -/
inductive CreateOutcome where
  /-- 400: struct validation or `validateTransaction` failed. -/
  | badRequest (msg : String)
  /-- 200: duplicate `transaction_id`; `success` iff stored status is COMPLETED. -/
  | alreadyProcessed (success : Bool)
  /-- 401: signature verification failed. -/
  | unauthorized
  /-- 500: transfer or storage failed (database transaction rolled back). -/
  | serverError (msg : String)
  /-- 201: processed, committed, queued for settlement. -/
  | created
  deriving DecidableEq, Repr

/-- Model of `CreateTransaction` (single-transaction path), after JSON decoding:
struct validation → idempotency lookup on `transaction_id` → field/account
validation → signature verification → one database transaction running
`TransferTx` and `storeTransactionTx`, committed only if both succeed. -/
def createTransaction (mac : MacFn) (now : Int) (tx : Tx) (st : DBState) :
    CreateOutcome × DBState :=
  match validateStructTx tx with
  | .error _ => (.badRequest "Validation failed", st)
  | .ok _ =>
  match st.txRows.find? (fun r => r.txID = tx.txID) with
  | some row => (.alreadyProcessed (row.status = "COMPLETED"), st)
  | none =>
  match validateTransaction now st.accounts tx with
  | .error e => (.badRequest ("Validation failed: " ++ e), st)
  | .ok _ =>
  match verifySignature mac st.cards tx with
  | .error _ => (.unauthorized, st)
  | .ok _ =>
  match (transferTx tx.cardID tx.merchantID tx.txID tx.amount st).1 with
  | .error _ => (.serverError "Failed to process transfer", st)
  | .ok st1 =>
  match insertTxRow st1 (rowOfTx tx) with
  | .error _ => (.serverError "Failed to store transaction", st)
  | .ok st2 => (.created, st2)

/-- One iteration of the `BatchTransactions` loop: validate → verify
signature → double-spend check → `processLedgerTransfer` (its own committed
`Transfer`) → `storeTransaction`; any failure records the item in the failed
partition and the loop continues with the next item. -/
def processBatchItem (mac : MacFn) (now : Int) (tx : Tx) (st : DBState) :
    (Tx ⊕ (String × String)) × DBState :=
  match validateTransaction now st.accounts tx with
  | .error e => (.inr (tx.txID, e), st)
  | .ok _ =>
  match verifySignature mac st.cards tx with
  | .error _ => (.inr (tx.txID, "Signature verification failed"), st)
  | .ok _ =>
  match checkDoubleSpending (recordedCounterPairs st.txRows) tx with
  | .error _ => (.inr (tx.txID, "Double spending detected"), st)
  | .ok _ =>
  match transfer tx.cardID tx.merchantID tx.txID tx.amount st with
  | (.error _, st1, _) => (.inr (tx.txID, "Transfer failed"), st1)
  | (.ok _, st1, _) =>
  match storeTransaction st1 tx with
  | .error _ => (.inr (tx.txID, "Storage failed"), st1)
  | .ok st2 => (.inl { tx with status := "COMPLETED" }, st2)

/-- The `BatchTransactions` loop over the whole list, accumulating the
processed/failed partition in input order. -/
def processBatch (mac : MacFn) (now : Int) :
    List Tx → DBState → (List Tx × List (String × String)) × DBState
  | [], st => (([], []), st)
  | tx :: rest, st =>
    match processBatchItem mac now tx st with
    | (.inl okTx, st1) =>
      let ((p, f), st2) := processBatch mac now rest st1
      ((okTx :: p, f), st2)
    | (.inr bad, st1) =>
      let ((p, f), st2) := processBatch mac now rest st1
      ((p, bad :: f), st2)

structure BatchSummary where
  total       : Nat
  succeeded   : Nat
  failedCount : Nat
  deriving DecidableEq, Repr

structure BatchResponse where
  processed : List Tx
  failed    : List (String × String)
  summary   : BatchSummary
  deriving DecidableEq, Repr

/-- Model of `BatchTransactions`, after JSON decoding: reject an empty list, reject
more than 100 items, otherwise run the loop and report the partition with
the summary `{total, succeeded, FAILED}`. -/
def batchTransactions (mac : MacFn) (now : Int) (txs : List Tx) (st : DBState) :
    Except String BatchResponse × DBState :=
  if txs.length = 0 then (.error "No transactions provided", st)
  else if txs.length > 100 then (.error "Batch size exceeds limit (100)", st)
  else
    let ((p, f), st') := processBatch mac now txs st
    (.ok { processed := p, failed := f,
           summary := { total := txs.length, succeeded := p.length,
                        failedCount := f.length } }, st')

/-! ## HSM signing layer (`internal/hsm`, key registry)

The RSA primitives (`sha256`, `rsa.SignPKCS1v15`, `rsa.VerifyPKCS1v15`) are
abstracted as parameters; the claims below concern only the gating on the
key's active flag, which is the modelled logic. -/

namespace HSM

/-- A `KeyPair` of the in-memory registry: identifier, key material and the
active flag. -/
structure KeyPair (Priv Pub : Type) where
  id       : String
  privKey  : Priv
  pubKey   : Pub
  isActive : Bool

variable {Priv Pub Sig : Type}

/-- Model of `SignData`: look up the key, refuse inactive keys, then hash-then-sign. -/
def SignData (rsaSign : Priv → List Nat → Except String Sig)
    (sha256 : List Nat → List Nat) (keys : List (KeyPair Priv Pub))
    (keyID : String) (data : List Nat) : Except String Sig :=
  match keys.find? (fun k => k.id = keyID) with
  | none => .error ("key " ++ keyID ++ " not found")
  | some kp =>
    if !kp.isActive then .error ("key " ++ keyID ++ " is not active")
    else rsaSign kp.privKey (sha256 data)

/-- Model of `VerifySignature`: look up the key and hash-then-verify; a failed RSA
verification is reported as `(false, nil)`, never as an error, and there is
no check of the key's active flag. -/
def VerifySignature (rsaVerify : Pub → List Nat → Sig → Bool)
    (sha256 : List Nat → List Nat) (keys : List (KeyPair Priv Pub))
    (keyID : String) (data : List Nat) (signature : Sig) : Except String Bool :=
  match keys.find? (fun k => k.id = keyID) with
  | none => .error ("key " ++ keyID ++ " not found")
  | some kp => .ok (rsaVerify kp.pubKey (sha256 data) signature)

end HSM

/-! ## Helper lemmas -/

theorem listStrLt_irrefl (xs : List Char) : listStrLt xs xs = false := by
  induction xs with
  | nil => rfl
  | cons c cs ih => simp [listStrLt, ih]

theorem strLt_irrefl (a : String) : strLt a a = false :=
  listStrLt_irrefl a.data

theorem listStrLt_asymm {xs ys : List Char} (h : listStrLt xs ys = true) :
    listStrLt ys xs = false := by
  induction xs generalizing ys with
  | nil =>
    cases ys with
    | nil => exact absurd h (by simp [listStrLt])
    | cons d ds => rfl
  | cons c cs ih =>
    cases ys with
    | nil => simp [listStrLt] at h
    | cons d ds =>
      by_cases hcd : c.toNat < d.toNat
      · have hdc : ¬ d.toNat < c.toNat := by omega
        simp [listStrLt, hdc, hcd]
      · by_cases hdc : d.toNat < c.toNat
        · simp [listStrLt, hcd, hdc] at h
        · have h' : listStrLt cs ds = true := by simpa [listStrLt, hcd, hdc] using h
          simpa [listStrLt, hcd, hdc] using ih h'

theorem strLt_asymm {a b : String} (h : strLt a b = true) : strLt b a = false :=
  listStrLt_asymm h

theorem strLt_ne {a b : String} (h : strLt a b = true) : a ≠ b := by
  intro he
  subst he
  rw [strLt_irrefl] at h
  exact Bool.false_ne_true h

/-- The function `lockOrder` is symmetric in its two arguments when they
differ: both directions produce the same ordered pair. -/
theorem lockOrder_comm {a b : String} (h : a ≠ b) : lockOrder a b = lockOrder b a := by
  unfold lockOrder
  rcases strLt_trichotomy a b h with h1 | h1
  · rw [h1, strLt_asymm h1]
    simp
  · rw [h1, strLt_asymm h1]
    simp

/-- The first component of `lockOrder` is byte-lexicographically smaller
than the second whenever the two identifiers differ. -/
theorem lockOrder_sorted {a b : String} (h : a ≠ b) :
    strLt (lockOrder a b).1 (lockOrder a b).2 = true := by
  unfold lockOrder
  rcases strLt_trichotomy b a (fun he => h he.symm) with h1 | h1
  · simp [h1]
  · rw [strLt_asymm h1]
    simpa using h1

/-- Unfolding of `transferTx` once both row locks resolve: the debit/credit
roles are re-associated with the originally named source (`F`) and
destination (`T`) regardless of the lock order, and the lock-acquisition
trace is the ordered pair of `lockOrder`. -/
theorem transferTx_unfold {fromID toID : String} (txID : String) (amount : Int)
    (st : DBState) {F T : Account}
    (hfrom : lookupAccount st.accounts fromID = some F)
    (hto : lookupAccount st.accounts toID = some T) :
    transferTx fromID toID txID amount st =
      ((if F.balance < amount then .error "insufficient balance"
        else
          let st2 := createLedgerEntry
            (createLedgerEntry st txID F.id (i64neg amount) "DEBIT"
              (i64sub F.balance amount))
            txID T.id amount "CREDIT" (i64add T.balance amount)
          match updateAccountBalance st2 F.id (i64sub F.balance amount) F.version with
          | .error e => .error e
          | .ok st3 =>
            match updateAccountBalance st3 T.id (i64add T.balance amount) T.version with
            | .error e => .error e
            | .ok st4 => .ok st4),
       [(lockOrder fromID toID).1, (lockOrder fromID toID).2]) := by
  unfold transferTx
  by_cases h : strLt toID fromID = true
  · have hne : toID ≠ fromID := strLt_ne h
    simp only [lockOrder, h, if_pos rfl, hfrom, hto, hne, ite_true, ne_eq,
      not_false_iff]
    split
    · rfl
    · split
      · rfl
      · split
        · rfl
        · rfl
  · have h2 : strLt toID fromID = false := by
      cases hb : strLt toID fromID
      · rfl
      · exact absurd hb h
    simp only [lockOrder, h2, Bool.false_eq_true, if_false, hfrom, hto, ne_eq,
      not_true, ite_false]
    split
    · rfl
    · split
      · rfl
      · split
        · rfl
        · rfl

/-- On success `updateAccountBalance` performs exactly the conditioned
update: every row matching `(id, version)` gets the new balance and its
version incremented by one; nothing else changes. -/
theorem updateAccountBalance_ok {st : DBState} {accountID : String}
    {newBalance : Int} {version : Nat} {st' : DBState}
    (h : updateAccountBalance st accountID newBalance version = .ok st') :
    st' = { st with accounts := st.accounts.map (fun a =>
        if a.id = accountID && a.version = version then
          { a with balance := newBalance, version := a.version + 1 }
        else a) } := by
  simp only [updateAccountBalance] at h
  split at h
  · cases h
  · cases h
    rfl

/-- Zero affected rows: `updateAccountBalance` reports the optimistic-lock
failure. -/
theorem updateAccountBalance_error {st : DBState} {accountID : String}
    {newBalance : Int} {version : Nat}
    (h : (st.accounts.filter
        (fun a => a.id = accountID && a.version = version)).isEmpty = true) :
    updateAccountBalance st accountID newBalance version =
      .error ("optimistic lock failed for account " ++ accountID) := by
  unfold updateAccountBalance
  simp [h]

/-- Shape of a successful `transferTx`: the balance check passed, exactly the
debit and credit entries were appended to the ledger, and the payment-state
and transactions tables are untouched. -/
theorem transferTx_ok {fromID toID txID : String} {amount : Int}
    {st st' : DBState} {F T : Account}
    (hfrom : lookupAccount st.accounts fromID = some F)
    (hto : lookupAccount st.accounts toID = some T)
    (hsucc : (transferTx fromID toID txID amount st).1 = .ok st') :
    ¬ F.balance < amount ∧
    st'.ledger = st.ledger ++
      [{ txID := txID, accountID := F.id, amount := i64neg amount,
         entryType := "DEBIT", balance := i64sub F.balance amount },
       { txID := txID, accountID := T.id, amount := amount,
         entryType := "CREDIT", balance := i64add T.balance amount }] ∧
    st'.paymentStates = st.paymentStates ∧ st'.txRows = st.txRows := by
  rw [transferTx_unfold txID amount st hfrom hto] at hsucc
  simp only at hsucc
  by_cases hb : F.balance < amount
  · rw [if_pos hb] at hsucc
    cases hsucc
  · rw [if_neg hb] at hsucc
    refine ⟨hb, ?_⟩
    split at hsucc
    · cases hsucc
    · rename_i st3 h1
      split at hsucc
      · cases hsucc
      · rename_i st4 h2
        cases hsucc
        have e1 := updateAccountBalance_ok h1
        have e2 := updateAccountBalance_ok h2
        subst e1
        subst e2
        simp [createLedgerEntry]

deriving instance DecidableEq for Except

/-- Sum of the ledger-entry amounts recorded under one transaction
identifier. -/
def entryAmountSum (ledger : List LedgerEntry) (txID : String) : Int :=
  ((ledger.filter (fun e => e.txID = txID)).map (fun e => e.amount)).sum

/-! ## Concrete fixtures used by witnesses and counterexamples -/

def acctX : Account :=
  { id := "ACCX", cardID := "CARDX", accountID := "NUBANX",
    balance := 5000, version := 1, status := "ACTIVE" }

def acctY : Account :=
  { id := "ACCY", cardID := "CARDY", accountID := "NUBANY",
    balance := 100, version := 1, status := "ACTIVE" }

def ledgerState : DBState :=
  { accounts := [acctX, acctY], ledger := [], paymentStates := [],
    txRows := [], cards := [] }

/-! ## C1 — double-entry balance of a successful TransferTx -/

/-- C1 (counterexample): at the `int64` minimum amount, Go negation wraps
(`-(-2^63) = -2^63`), so a successful `TransferTx` records a DEBIT leg of
`-2^63` (not `-amount = 2^63`) next to the CREDIT leg of `-2^63`, and the
entry amounts recorded under the transaction identifier sum to `-2^64`,
not zero.  The balance check `fromAccount.Balance < amount` passes for every
balance since no `int64` is below `-2^63`. -/
theorem c1_counterexample :
    ((transferTx "ACCX" "ACCY" "T1" (-(2 ^ 63)) ledgerState).1.toOption.map
        (fun s => entryAmountSum s.ledger "T1")) = some (-(2 ^ 64)) ∧
    (-(2 ^ 64) : Int) ≠ 0 := by decide

/-- C1 (amended): for every successful `TransferTx` with an amount strictly
inside the `int64` range (in particular every amount of the validated
pipeline, which is positive), exactly two ledger entries are recorded under
the transaction identifier — a DEBIT of `-amount` for the source account and
a CREDIT of `+amount` for the destination — summing to exactly zero; the
balance snapshots are the wrapping-`int64` values `sourceBalance - amount`
and `destBalance + amount`, equal to the mathematical values whenever those
fit in `int64`. -/
theorem c1_amended {fromID toID txID : String} {amount : Int} {st st' : DBState}
    {F T : Account}
    (hfrom : lookupAccount st.accounts fromID = some F)
    (hto : lookupAccount st.accounts toID = some T)
    (hlo : -(2 ^ 63) < amount) (hhi : amount < 2 ^ 63)
    (hfresh : st.ledger.filter (fun e => e.txID = txID) = [])
    (hsucc : (transferTx fromID toID txID amount st).1 = .ok st') :
    st'.ledger.filter (fun e => e.txID = txID) =
      [{ txID := txID, accountID := F.id, amount := -amount,
         entryType := "DEBIT", balance := i64sub F.balance amount },
       { txID := txID, accountID := T.id, amount := amount,
         entryType := "CREDIT", balance := i64add T.balance amount }] ∧
    entryAmountSum st'.ledger txID = 0 ∧
    (-(2 ^ 63) ≤ F.balance - amount → F.balance - amount < 2 ^ 63 →
      i64sub F.balance amount = F.balance - amount) ∧
    (-(2 ^ 63) ≤ T.balance + amount → T.balance + amount < 2 ^ 63 →
      i64add T.balance amount = T.balance + amount) := by
  obtain ⟨hb, hledger, -, -⟩ := transferTx_ok hfrom hto hsucc
  have hneg : i64neg amount = -amount := by
    unfold i64neg
    exact i64wrap_eq_of_range _ (by linarith) (by linarith)
  refine ⟨?_, ?_, ?_, ?_⟩
  · rw [hledger, List.filter_append, hfresh, hneg]
    simp
  · unfold entryAmountSum
    rw [hledger, List.filter_append, hfresh, hneg]
    simp
  · intro h1 h2
    unfold i64sub
    exact i64wrap_eq_of_range _ h1 h2
  · intro h1 h2
    unfold i64add
    exact i64wrap_eq_of_range _ h1 h2

/-- The committed state of the C1 witness transfer: 1000 minor units moved
from `ACCX` (5000 → 4000) to `ACCY` (100 → 1100), both versions bumped. -/
def c1WitFinal : DBState :=
  { accounts :=
      [{ acctX with balance := 4000, version := 2 },
       { acctY with balance := 1100, version := 2 }],
    ledger :=
      [{ txID := "T1", accountID := "ACCX", amount := -1000,
         entryType := "DEBIT", balance := 4000 },
       { txID := "T1", accountID := "ACCY", amount := 1000,
         entryType := "CREDIT", balance := 1100 }],
    paymentStates := [], txRows := [], cards := [] }

/-- C1 witness: the amended theorem applied to the concrete 1000-unit
transfer from `ACCX` to `ACCY`. -/
theorem c1_amended_witness :
    (transferTx "ACCX" "ACCY" "T1" 1000 ledgerState).1 = .ok c1WitFinal ∧
    entryAmountSum c1WitFinal.ledger "T1" = 0 := by
  have hfrom : lookupAccount ledgerState.accounts "ACCX" = some acctX := by decide
  have hto : lookupAccount ledgerState.accounts "ACCY" = some acctY := by decide
  have hlo : -(2 ^ 63 : Int) < 1000 := by decide
  have hhi : (1000 : Int) < 2 ^ 63 := by decide
  have hfresh : ledgerState.ledger.filter (fun e => e.txID = "T1") = [] := by decide
  have hsucc : (transferTx "ACCX" "ACCY" "T1" 1000 ledgerState).1 = .ok c1WitFinal := by
    decide
  exact ⟨hsucc, (c1_amended hfrom hto hlo hhi hfresh hsucc).2.1⟩

/-! ## C2 — insufficient balance aborts with no partial writes -/

/-- C2: whenever the source account's balance is strictly below the
requested amount, `TransferTx` fails with the insufficient-balance error,
and the enclosing `Transfer` rolls its unit of work back so the committed
state — every ledger entry, balance and version — is exactly the original
one. -/
theorem c2_insufficient_balance {fromID toID txID : String} {amount : Int}
    {st : DBState} {F T : Account}
    (hfrom : lookupAccount st.accounts fromID = some F)
    (hto : lookupAccount st.accounts toID = some T)
    (hlt : F.balance < amount) :
    (transferTx fromID toID txID amount st).1 = .error "insufficient balance" ∧
    (transfer fromID toID txID amount st).1 = .error "insufficient balance" ∧
    (transfer fromID toID txID amount st).2.1 = st := by
  have h1 : (transferTx fromID toID txID amount st).1 =
      .error "insufficient balance" := by
    rw [transferTx_unfold txID amount st hfrom hto]
    simp [hlt]
  have hfrom' : lookupAccount (appendPaymentState st txID "PENDING").accounts
      fromID = some F := hfrom
  have hto' : lookupAccount (appendPaymentState st txID "PENDING").accounts
      toID = some T := hto
  have h2 : (transferTx fromID toID txID amount
      (appendPaymentState st txID "PENDING")).1 = .error "insufficient balance" := by
    rw [transferTx_unfold txID amount _ hfrom' hto']
    simp [hlt]
  refine ⟨h1, ?_, ?_⟩ <;>
  · simp only [transfer]
    cases htx : transferTx fromID toID txID amount
        (appendPaymentState st txID "PENDING") with
    | mk r locks =>
      have hr : r = .error "insufficient balance" := by
        have h3 := h2
        rw [htx] at h3
        exact h3
      subst hr
      simp

/-- C2 witness: the claim's concrete scenario — account `ACCX` holds 5000
minor units and a 6000-unit transfer to `ACCY` is submitted; the result is
the insufficient-balance error and the committed state is untouched. -/
theorem c2_witness :
    (transfer "ACCX" "ACCY" "T2" 6000 ledgerState).1 =
      .error "insufficient balance" ∧
    (transfer "ACCX" "ACCY" "T2" 6000 ledgerState).2.1 = ledgerState ∧
    acctX.balance = 5000 := by
  have hfrom : lookupAccount ledgerState.accounts "ACCX" = some acctX := by decide
  have hto : lookupAccount ledgerState.accounts "ACCY" = some acctY := by decide
  have hlt : acctX.balance < 6000 := by decide
  obtain ⟨-, h2, h3⟩ := c2_insufficient_balance hfrom hto hlt
  exact ⟨h2, h3, by decide⟩

/-! ## C6 — deadlock-avoidant lock ordering and role re-association -/

/-- The lock-acquisition trace of `transferTx` depends only on the ordered
pair produced by `lockOrder` and on whether the first lock's row exists. -/
theorem transferTx_trace (fromID toID txID : String) (amt : Int) (st : DBState) :
    (transferTx fromID toID txID amt st).2 =
      (match lookupAccount st.accounts (lockOrder fromID toID).1 with
       | none => [(lockOrder fromID toID).1]
       | some _ => [(lockOrder fromID toID).1, (lockOrder fromID toID).2]) := by
  unfold transferTx
  rcases ho : lockOrder fromID toID with ⟨f, s⟩
  dsimp only
  cases hl : lookupAccount st.accounts f
  · simp
  · cases hl2 : lookupAccount st.accounts s
    · simp
    · simp only
      repeat' split
      all_goals rfl

/-- C6: for distinct account identifiers the two row locks are acquired in
one fixed global order — the byte-lexicographically smaller identifier
first — identical for `Transfer(A,B,…)` and `Transfer(B,A,…)`, and on
success the DEBIT leg is re-associated with the account row resolved from
the originally named source and the CREDIT leg with the destination. -/
theorem c6_lock_order {A B : String} (hne : A ≠ B) (st : DBState)
    (txID txID' : String) (amt amt' : Int) :
    (transferTx A B txID amt st).2 = (transferTx B A txID' amt' st).2 ∧
    strLt (lockOrder A B).1 (lockOrder A B).2 = true ∧
    ((transferTx A B txID amt st).2 = [(lockOrder A B).1] ∨
     (transferTx A B txID amt st).2 =
       [(lockOrder A B).1, (lockOrder A B).2]) ∧
    (∀ F T st', lookupAccount st.accounts A = some F →
      lookupAccount st.accounts B = some T →
      (transferTx A B txID amt st).1 = .ok st' →
      st'.ledger = st.ledger ++
        [{ txID := txID, accountID := F.id, amount := i64neg amt,
           entryType := "DEBIT", balance := i64sub F.balance amt },
         { txID := txID, accountID := T.id, amount := amt,
           entryType := "CREDIT", balance := i64add T.balance amt }]) := by
  refine ⟨?_, lockOrder_sorted hne, ?_, ?_⟩
  · rw [transferTx_trace, transferTx_trace, lockOrder_comm hne]
  · rw [transferTx_trace]
    cases lookupAccount st.accounts (lockOrder A B).1
    · exact Or.inl rfl
    · exact Or.inr rfl
  · intro F T st' hfrom hto hsucc
    exact (transferTx_ok hfrom hto hsucc).2.1

/-- C6 witness: the reverse-direction transfer `ACCY → ACCX` acquires the
locks in the same order as `ACCX → ACCY`, with the smaller identifier
first. -/
theorem c6_witness :
    (transferTx "ACCY" "ACCX" "T3" 50 ledgerState).2 =
      (transferTx "ACCX" "ACCY" "T4" 70 ledgerState).2 ∧
    strLt (lockOrder "ACCY" "ACCX").1 (lockOrder "ACCY" "ACCX").2 = true := by
  obtain ⟨h1, h2, -, -⟩ :=
    c6_lock_order (by decide : ("ACCY" : String) ≠ "ACCX") ledgerState "T3" "T4" 50 70
  exact ⟨h1, h2⟩

/-! ## C10 — a self-transfer can never commit -/

/-- An `updateAccountBalance` call succeeds for a row that is present with
its current version, performing exactly the conditioned update. -/
theorem updateAccountBalance_ok_of_mem {st : DBState} {F : Account}
    (hmem : F ∈ st.accounts) (nb : Int) :
    updateAccountBalance st F.id nb F.version =
      .ok { st with accounts := st.accounts.map (fun x =>
          if x.id = F.id && x.version = F.version then
            { x with balance := nb, version := x.version + 1 }
          else x) } := by
  simp only [updateAccountBalance]
  have hFin : F ∈ st.accounts.filter
      (fun x => x.id = F.id && x.version = F.version) :=
    List.mem_filter.mpr ⟨hmem, by simp⟩
  have hne := List.ne_nil_of_mem hFin
  have hie : (st.accounts.filter
      (fun x => x.id = F.id && x.version = F.version)).isEmpty = false := by
    cases he : (st.accounts.filter
        (fun x => x.id = F.id && x.version = F.version)).isEmpty
    · rfl
    · exact absurd (List.isEmpty_iff.mp he) hne
  simp [hie]

/-- After the first conditioned update bumped every row matching
`(F.id, F.version)`, a second update conditioned on the same stale version
affects zero rows and raises the optimistic-lock error. -/
theorem updateAccountBalance_stale_version {st : DBState} {F : Account}
    (nb nb2 : Int) :
    updateAccountBalance
      { st with accounts := st.accounts.map (fun x =>
          if x.id = F.id && x.version = F.version then
            { x with balance := nb, version := x.version + 1 }
          else x) }
      F.id nb2 F.version =
      .error ("optimistic lock failed for account " ++ F.id) := by
  apply updateAccountBalance_error
  rw [List.isEmpty_iff, List.filter_eq_nil_iff]
  intro x hx
  obtain ⟨y, hy, rfl⟩ := List.mem_map.mp hx
  by_cases hid : y.id = F.id
  · by_cases hv : y.version = F.version
    · simp [hid, hv]
    · simp [hid, hv]
  · simp [hid]

/-- C10: a self-transfer `Transfer(a, a, txID, m)` with sufficient balance
always fails — the second version-conditioned balance update sees the
version already bumped by the first update on the same row, affects zero
rows and raises the optimistic-lock error — and the rollback leaves the
committed state untouched: no balance, version or ledger entry changes. -/
theorem c10_self_transfer {a txID : String} {m : Int} {st : DBState}
    {F : Account}
    (hfrom : lookupAccount st.accounts a = some F)
    (hbal : m ≤ F.balance) :
    (transfer a a txID m st).1 =
      .error ("optimistic lock failed for account " ++ F.id) ∧
    (transfer a a txID m st).2.1 = st := by
  simp only [transfer]
  have hfrom1 : lookupAccount (appendPaymentState st txID "PENDING").accounts a =
      some F := hfrom
  rw [transferTx_unfold txID m _ hfrom1 hfrom1]
  rw [if_neg (not_lt.mpr hbal)]
  dsimp only
  have hmem : F ∈ st.accounts := by
    unfold lookupAccount at hfrom
    exact List.mem_of_find?_eq_some hfrom
  have hmem2 : F ∈ (createLedgerEntry
      (createLedgerEntry (appendPaymentState st txID "PENDING") txID F.id
        (i64neg m) "DEBIT" (i64sub F.balance m))
      txID F.id m "CREDIT" (i64add F.balance m)).accounts := by
    simpa [createLedgerEntry, appendPaymentState] using hmem
  rw [updateAccountBalance_ok_of_mem hmem2 (i64sub F.balance m)]
  dsimp only
  rw [updateAccountBalance_stale_version (i64sub F.balance m) (i64add F.balance m)]
  exact ⟨rfl, rfl⟩

/-- C10 witness: a 100-unit self-transfer on `ACCX` (balance 5000) fails
with the optimistic-lock error and commits nothing. -/
theorem c10_witness :
    (transfer "ACCX" "ACCX" "T5" 100 ledgerState).1 =
      .error ("optimistic lock failed for account " ++ "ACCX") ∧
    (transfer "ACCX" "ACCX" "T5" 100 ledgerState).2.1 = ledgerState := by
  have hfrom : lookupAccount ledgerState.accounts "ACCX" = some acctX := by decide
  have hbal : (100 : Int) ≤ acctX.balance := by decide
  exact c10_self_transfer hfrom hbal

/-! ## C7 — version increments exactly once per committed balance mutation -/

/-- C7: (a) a successful `updateAccountBalance` leaves every row either
untouched or — when it matched the conditioned `(id, version)` — with the
new balance and the version advanced by exactly one; (b) when zero rows
match the conditioned update, it aborts with the optimistic-lock error;
(c) any failing `Transfer` rolls its whole unit of work back, so no version
is ever advanced by a transfer that does not also commit the corresponding
balance change. -/
theorem c7_optimistic_lock :
    (∀ (st : DBState) (accountID : String) (nb : Int) (v : Nat) (st' : DBState),
      updateAccountBalance st accountID nb v = .ok st' →
      ∀ y ∈ st'.accounts, y ∈ st.accounts ∨
        ∃ x, x ∈ st.accounts ∧ x.id = accountID ∧ x.version = v ∧
          y = { x with balance := nb, version := v + 1 }) ∧
    (∀ (st : DBState) (accountID : String) (nb : Int) (v : Nat),
      (st.accounts.filter
        (fun x => x.id = accountID && x.version = v)).isEmpty = true →
      updateAccountBalance st accountID nb v =
        .error ("optimistic lock failed for account " ++ accountID)) ∧
    (∀ (fromID toID txID : String) (amount : Int) (st : DBState) (e : String),
      (transfer fromID toID txID amount st).1 = .error e →
      (transfer fromID toID txID amount st).2.1 = st) := by
  refine ⟨?_, ?_, ?_⟩
  · intro st accountID nb v st' hok y hy
    have hsh := updateAccountBalance_ok hok
    subst hsh
    simp only at hy
    obtain ⟨x, hx, rfl⟩ := List.mem_map.mp hy
    by_cases hid : x.id = accountID
    · by_cases hv : x.version = v
      · right
        refine ⟨x, hx, hid, hv, ?_⟩
        simp [hid, hv]
      · left
        simpa [hid, hv] using hx
    · left
      simpa [hid] using hx
  · intro st accountID nb v h
    exact updateAccountBalance_error h
  · intro fromID toID txID amount st e h
    simp only [transfer] at h ⊢
    cases htx : transferTx fromID toID txID amount
        (appendPaymentState st txID "PENDING") with
    | mk r locks =>
      cases r
      · rfl
      · rw [htx] at h
        simp at h

/-- The committed state after the C7 witness update on `ACCX`. -/
def c7UpdState : DBState :=
  { ledgerState with accounts :=
      [{ acctX with balance := 4000, version := 2 }, acctY] }

/-- C7 witness: the three parts applied at concrete inputs — a successful
conditioned update on `ACCX` advances its version from 1 to exactly 2, a
conditioned update matching no row fails with the optimistic-lock error,
and a failed transfer leaves the committed state unchanged. -/
theorem c7_witness :
    (({ acctX with balance := 4000, version := 2 } : Account) ∈
        ledgerState.accounts ∨
      ∃ x, x ∈ ledgerState.accounts ∧ x.id = "ACCX" ∧ x.version = 1 ∧
        ({ acctX with balance := 4000, version := 2 } : Account) =
          { x with balance := 4000, version := 1 + 1 }) ∧
    updateAccountBalance ledgerState "ACCZ" 123 1 =
      .error ("optimistic lock failed for account " ++ "ACCZ") ∧
    (transfer "ACCX" "ACCY" "T6" 6000 ledgerState).2.1 = ledgerState := by
  refine ⟨?_, ?_, ?_⟩
  · refine c7_optimistic_lock.1 ledgerState "ACCX" 4000 1 c7UpdState ?_ _ ?_
    · decide
    · decide
  · exact c7_optimistic_lock.2.1 ledgerState "ACCZ" 123 1 (by decide)
  · exact c7_optimistic_lock.2.2 "ACCX" "ACCY" "T6" 6000 ledgerState
      "insufficient balance" (by decide)

/-! ## C5 — the timestamp freshness window of validateTransaction -/

/-- A well-formed debit transaction whose timestamp is 45 seconds in the
future. -/
def tx45 : Tx :=
  { version := 1, txID := "TS-1", timestamp := 1000045, cardID := "CARDX",
    merchantID := "MER-1", amount := 1000, currency := "NGN", counter := 1,
    txType := "DEBIT", signature := "sig", narration := "", status := "" }

/-- A well-formed debit transaction whose timestamp is one hour in the
past. -/
def txOld : Tx :=
  { tx45 with txID := "TS-2", timestamp := 1000000 - 3600 }

/-- C5 (counterexample): with `now = 1000000`, `validateTransaction` accepts
a live transaction 45 seconds in the future (claimed limit: 30 seconds) and
one a full hour in the past (claimed limit: 5 minutes). -/
theorem c5_counterexample :
    validateTransaction 1000000 [acctX] tx45 = .ok () ∧
    tx45.timestamp > 1000000 + 30 ∧
    validateTransaction 1000000 [acctX] txOld = .ok () ∧
    txOld.timestamp < 1000000 - 300 := by decide

/-- C5 (amended): for a transaction passing every non-timestamp check, the
single `validateTransaction` shared by the live and batch paths accepts the
timestamp `ts` exactly when `now - 7 days ≤ ts ≤ now + 60 seconds`; the
tolerances are 60 seconds future and 7 days past, not 30 seconds and
5 minutes. -/
theorem c5_amended {now : Int} {accts : List Account} {tx : Tx} {F : Account}
    (hid : tx.txID ≠ "") (hcard : tx.cardID ≠ "")
    (hacct : accts.find? (fun a => a.cardID = tx.cardID) = some F)
    (hactive : F.status = "ACTIVE")
    (hmerch : tx.merchantID ≠ "") (hamt : 0 < tx.amount)
    (hbal : tx.txType = "DEBIT" → ¬ F.balance < tx.amount)
    (hcur : tx.currency ≠ "") (hctr : tx.counter ≠ 0) (hsig : tx.signature ≠ "") :
    validateTransaction now accts tx = .ok () ↔
      now - 86400 * 7 ≤ tx.timestamp ∧ tx.timestamp ≤ now + 60 := by
  have hva : validateAccountInternal accts tx.cardID = .ok () := by
    unfold validateAccountInternal
    rw [hacct]
    simp [hactive]
  have hsb : (if tx.txType = "DEBIT" then
      checkSufficientBalanceInternal accts tx.cardID tx.amount
    else .ok ()) = .ok () := by
    by_cases hdeb : tx.txType = "DEBIT"
    · rw [if_pos hdeb]
      unfold checkSufficientBalanceInternal
      rw [hacct]
      simp [hactive, hbal hdeb]
    · rw [if_neg hdeb]
  unfold validateTransaction
  rw [hva, hsb]
  simp only [hid, hcard, hmerch, hcur, hctr, hsig, not_le.mpr hamt, ite_false,
    if_false, if_neg]
  constructor
  · intro h
    by_cases h1 : tx.timestamp > now + 60
    · simp [h1] at h
    · by_cases h2 : tx.timestamp < now - 86400 * 7
      · simp [h1, h2] at h
        omega
      · omega
  · intro hw
    have h1 : ¬ tx.timestamp > now + 60 := by omega
    have h2 : ¬ tx.timestamp < now - 86400 * 7 := by omega
    simp [h1, h2]
    omega

/-- C5 witness: the amended window applied to the concrete transaction 45
seconds in the future — accepted because it is within `now + 60`. -/
theorem c5_amended_witness :
    validateTransaction 1000000 [acctX] tx45 = .ok () ↔
      1000000 - 86400 * 7 ≤ tx45.timestamp ∧ tx45.timestamp ≤ 1000000 + 60 :=
  c5_amended (F := acctX) (by decide) (by decide) (by decide) (by decide)
    (by decide) (by decide) (fun _ => by decide) (by decide) (by decide)
    (by decide)

/-! ## C8 — Sign refuses inactive keys, Verify still accepts them -/

/-- C8: for any key present in the in-memory registry with its active flag
cleared, `SignData` fails with the key-is-not-active error while
`VerifySignature` on the very same key still runs the RSA verification and
returns its boolean outcome — it never fails on account of the key's
inactive status, so signatures issued while the key was active remain
verifiable. -/
theorem c8_inactive_key {Priv Pub Sig : Type}
    (rsaSign : Priv → List Nat → Except String Sig)
    (rsaVerify : Pub → List Nat → Sig → Bool)
    (sha256 : List Nat → List Nat)
    (keys : List (HSM.KeyPair Priv Pub)) (keyID : String) (data : List Nat)
    (s : Sig) {kp : HSM.KeyPair Priv Pub}
    (hfind : keys.find? (fun k => k.id = keyID) = some kp)
    (hinactive : kp.isActive = false) :
    HSM.SignData rsaSign sha256 keys keyID data =
      .error ("key " ++ keyID ++ " is not active") ∧
    HSM.VerifySignature rsaVerify sha256 keys keyID data s =
      .ok (rsaVerify kp.pubKey (sha256 data) s) := by
  constructor
  · unfold HSM.SignData
    rw [hfind]
    simp [hinactive]
  · unfold HSM.VerifySignature
    rw [hfind]

/-- A registry holding one deactivated key. -/
def c8Keys : List (HSM.KeyPair Nat Nat) :=
  [{ id := "key1", privKey := 7, pubKey := 9, isActive := false }]

/-- C8 witness: on the deactivated `key1`, signing fails and verification
still returns a boolean outcome. -/
theorem c8_witness :
    HSM.SignData (fun _ _ => (.ok 0 : Except String Nat)) (fun d => d)
      c8Keys "key1" [1, 2] = .error ("key " ++ "key1" ++ " is not active") ∧
    HSM.VerifySignature (fun _ _ _ => (true : Bool)) (fun d => d)
      c8Keys "key1" [1, 2] 5 = .ok true :=
  c8_inactive_key (fun _ _ => (.ok 0 : Except String Nat))
    (fun _ _ _ => (true : Bool)) (fun d => d) c8Keys "key1" [1, 2] 5 rfl rfl

/-! ## Pipeline fixtures

A card account (`acctX`, card `CARDX`, balance 5000), a merchant account
(`acctM`, identifier `MER1`) and a card-authentication-key table.  The MAC
function is abstract in the pipeline; witnesses instantiate it with a
constant function (any transaction carrying the matching tag verifies, which
is all the claims below depend on). -/

def trivialMac : MacFn := fun _ _ => "sig"

def acctM : Account :=
  { id := "MER1", cardID := "CARDM", accountID := "NUBANM",
    balance := 0, version := 1, status := "ACTIVE" }

/-- A well-formed signed debit transaction of 1000 units, counter 7. -/
def dsTx1 : Tx :=
  { version := 1, txID := "DS-1", timestamp := 1000000, cardID := "CARDX",
    merchantID := "MER1", amount := 1000, currency := "NGN", counter := 7,
    txType := "DEBIT", signature := "sig", narration := "", status := "" }

/-- A second transaction from the same card carrying the same counter 7 but
a fresh transaction identifier. -/
def dsTx2 : Tx := { dsTx1 with txID := "DS-2" }

def dsState : DBState :=
  { accounts := [acctX, acctM], ledger := [], paymentStates := [],
    txRows := [], cards := [("CARDX", "CAK1")] }

/-! ## C4 — double-spend / counter protection -/

/-- C4: two transactions from the same card with the same counter value both
succeed.  Through the single path this is because `CreateTransaction` never
calls `checkDoubleSpending` at all; through the batch path it is because no
insert ever records a counter (the `transactions` schema has no counter
column), so `checkDoubleSpending`'s queries never see a previously used
pair.  Either way the claimed at-most-one-success property fails. -/
theorem c4_double_spend_not_rejected :
    (createTransaction trivialMac 1000000 dsTx1 dsState).1 = .created ∧
    (createTransaction trivialMac 1000000 dsTx2
        (createTransaction trivialMac 1000000 dsTx1 dsState).2).1 = .created ∧
    ((batchTransactions trivialMac 1000000 [dsTx1, dsTx2] dsState).1.toOption.map
        (fun r => (r.processed.length, r.failed.length))) = some (2, 0) ∧
    dsTx1.cardID = dsTx2.cardID ∧ dsTx1.counter = dsTx2.counter ∧
    dsTx1.txID ≠ dsTx2.txID := by decide

/-! ## C3 — idempotency by transaction identifier -/

/-- An already-processed transaction: identifier `TX-1`, recorded COMPLETED,
with its two ledger entries and moved balances committed. -/
def dupTx : Tx :=
  { version := 1, txID := "TX-1", timestamp := 1000000, cardID := "CARDX",
    merchantID := "MER1", amount := 1000, currency := "NGN", counter := 3,
    txType := "DEBIT", signature := "sig", narration := "", status := "" }

def dupState : DBState :=
  { accounts := [{ acctX with balance := 4000, version := 2 },
                 { acctM with balance := 1000, version := 2 }],
    ledger := [{ txID := "TX-1", accountID := "ACCX", amount := -1000,
                 entryType := "DEBIT", balance := 4000 },
               { txID := "TX-1", accountID := "MER1", amount := 1000,
                 entryType := "CREDIT", balance := 1000 }],
    paymentStates := [("TX-1", "PENDING"), ("TX-1", "SUCCESS")],
    txRows := [rowOfTx dupTx],
    cards := [("CARDX", "CAK1")] }

/-- C3 (counterexample): resubmitting the already-COMPLETED identifier
`TX-1` through the batch path is not short-circuited: the batch performs no
idempotency lookup, re-executes the ledger transfer (the committed ledger
grows from 2 to 4 entries under `TX-1` — a second financial effect), and
then reports the item as failed at storage instead of returning the
previously recorded successful outcome. -/
theorem c3_counterexample :
    ((batchTransactions trivialMac 1000000 [dupTx] dupState).1.toOption.map
        (fun r => (r.processed, r.failed))) =
      some ([], [("TX-1", "Storage failed")]) ∧
    ((batchTransactions trivialMac 1000000 [dupTx] dupState).2.ledger.filter
        (fun e => e.txID = "TX-1")).length = 4 ∧
    (dupState.ledger.filter (fun e => e.txID = "TX-1")).length = 2 ∧
    dupState.txRows.map TxRow.status = ["COMPLETED"] := by decide

/-- C3 (amended): only the single path short-circuits on a recorded
transaction identifier — `CreateTransaction` returns the already-processed
response, successful exactly when the stored status is COMPLETED, and leaves
the state untouched.  (The batch path performs no such lookup; see the
counterexample.) -/
theorem c3_amended (mac : MacFn) (now : Int) (tx : Tx) (st : DBState)
    (row : TxRow)
    (hvs : validateStructTx tx = .ok ())
    (hfind : st.txRows.find? (fun r => r.txID = tx.txID) = some row) :
    createTransaction mac now tx st =
      (.alreadyProcessed (row.status = "COMPLETED"), st) := by
  unfold createTransaction
  rw [hvs, hfind]

/-- C3 witness: resubmitting `TX-1` through the single path returns the
recorded successful outcome and changes nothing. -/
theorem c3_amended_witness :
    createTransaction trivialMac 1000000 dupTx dupState =
      (.alreadyProcessed true, dupState) :=
  c3_amended trivialMac 1000000 dupTx dupState (rowOfTx dupTx)
    (by decide) (by decide)

/-! ## C9 — batch size limit, independence and summary -/

/-- The processed/failed partition always covers the whole input: each item
lands in exactly one side. -/
theorem processBatch_length (mac : MacFn) (now : Int) (txs : List Tx)
    (st : DBState) :
    (processBatch mac now txs st).1.1.length +
      (processBatch mac now txs st).1.2.length = txs.length := by
  induction txs generalizing st with
  | nil => rfl
  | cons tx rest ih =>
    simp only [processBatch]
    cases hpi : processBatchItem mac now tx st with
    | mk r st1 =>
      cases r with
      | inl okTx =>
        rcases hb : processBatch mac now rest st1 with ⟨⟨p, f⟩, st2⟩
        have := ih st1
        rw [hb] at this
        simp only [hb]
        simp at this ⊢
        omega
      | inr bad =>
        rcases hb : processBatch mac now rest st1 with ⟨⟨p, f⟩, st2⟩
        have := ih st1
        rw [hb] at this
        simp only [hb]
        simp at this ⊢
        omega

/-- Batch processing decomposes over list append: the items after a prefix
are processed exactly as they would be starting from the prefix's final
state — no failure in the prefix aborts them. -/
theorem processBatch_append (mac : MacFn) (now : Int) (xs ys : List Tx)
    (st : DBState) :
    processBatch mac now (xs ++ ys) st =
      (((processBatch mac now xs st).1.1 ++
          (processBatch mac now ys (processBatch mac now xs st).2).1.1,
        (processBatch mac now xs st).1.2 ++
          (processBatch mac now ys (processBatch mac now xs st).2).1.2),
       (processBatch mac now ys (processBatch mac now xs st).2).2) := by
  induction xs generalizing st with
  | nil => simp [processBatch]
  | cons tx rest ih =>
    simp only [List.cons_append, processBatch]
    cases hpi : processBatchItem mac now tx st with
    | mk r st1 =>
      cases r with
      | inl okTx =>
        simp only [List.append_eq]
        rw [ih st1]
        simp [List.cons_append]
      | inr bad =>
        simp only [List.append_eq]
        rw [ih st1]
        simp [List.cons_append]

/-- C9 (amended): a batch of more than 100 transactions is rejected outright
with no state change; every non-empty batch within the limit is processed
item by item — a failure on one item never aborts the remaining items
(append decomposition) — and the response partitions the input with a
summary whose total equals the input length and equals succeeded plus
failed.  (An empty batch is rejected with its own error; see the
counterexample.) -/
theorem c9_amended (mac : MacFn) (now : Int) (txs : List Tx) (st : DBState) :
    (txs.length > 100 →
      batchTransactions mac now txs st =
        (.error "Batch size exceeds limit (100)", st)) ∧
    (1 ≤ txs.length → txs.length ≤ 100 →
      batchTransactions mac now txs st =
        (.ok { processed := (processBatch mac now txs st).1.1,
               failed := (processBatch mac now txs st).1.2,
               summary :=
                 { total := txs.length,
                   succeeded := (processBatch mac now txs st).1.1.length,
                   failedCount := (processBatch mac now txs st).1.2.length } },
         (processBatch mac now txs st).2) ∧
      (processBatch mac now txs st).1.1.length +
        (processBatch mac now txs st).1.2.length = txs.length) ∧
    (∀ xs ys st0,
      processBatch mac now (xs ++ ys) st0 =
        (((processBatch mac now xs st0).1.1 ++
            (processBatch mac now ys (processBatch mac now xs st0).2).1.1,
          (processBatch mac now xs st0).1.2 ++
            (processBatch mac now ys (processBatch mac now xs st0).2).1.2),
         (processBatch mac now ys (processBatch mac now xs st0).2).2)) := by
  refine ⟨?_, ?_, fun xs ys st0 => processBatch_append mac now xs ys st0⟩
  · intro hlen
    unfold batchTransactions
    rw [if_neg (by omega), if_pos hlen]
  · intro h1 h100
    refine ⟨?_, processBatch_length mac now txs st⟩
    unfold batchTransactions
    rw [if_neg (by omega), if_neg (by omega)]

/-- C9 (counterexample): a batch request with zero transactions — within any
"at most 100" limit — is rejected with an error instead of yielding the
claimed partition response with total 0. -/
theorem c9_counterexample :
    batchTransactions trivialMac 1000000 ([] : List Tx) dsState =
      (.error "No transactions provided", dsState) := by decide

/-- C9 witness: a 101-item batch is rejected unprocessed, and a singleton
batch yields a partition covering its single item. -/
theorem c9_witness :
    batchTransactions trivialMac 1000000 (List.replicate 101 dsTx1) dsState =
      (.error "Batch size exceeds limit (100)", dsState) ∧
    (processBatch trivialMac 1000000 [dsTx1] dsState).1.1.length +
      (processBatch trivialMac 1000000 [dsTx1] dsState).1.2.length = 1 := by
  refine ⟨(c9_amended trivialMac 1000000 (List.replicate 101 dsTx1) dsState).1
    (by simp), ?_⟩
  exact ((c9_amended trivialMac 1000000 [dsTx1] dsState).2.1
    (by decide) (by decide)).2

end NFCPay
